import Mathlib

/-!
Shallow embedding of the in-process coordination layer of the WHM MCP server:
the lock manager (`lock-manager.js`), the transaction log (`transaction-log.js`),
the NSEC3 async-operation tracker (`nsec3-async-handler.js`) and the error
mapper (`error-mapper.js`).

Modelling conventions, fixed once for the whole file:
* Timestamps and durations are integer milliseconds (`Int`); every function that
  calls `Date.now()` in the source takes the current time as an explicit `now`
  argument.
* The in-memory `Map` tables are association lists `List (String × _)` with
  JS `Map` semantics: `aset` replaces in place or appends, `aerase` removes the
  entry, `alookup` finds it.
* `crypto.randomBytes` id generation is modelled by an explicit fresh-token
  source: the lock table carries a `nextId` counter, and the transaction /
  operation id generators are passed the generated string as an argument.
* JS values (transaction payloads, error payloads, progress extras) are the
  inductive `JsVal`: JSON trees plus a `cyclic` marker standing for an object
  that contains a reference cycle, which is exactly the input on which
  `JSON.stringify` throws.  `JSON.parse(JSON.stringify v)` on a cycle-free JSON
  tree yields an equal tree, so the deep copy is modelled as the identity on
  cycle-free values and as a failure on cyclic ones.
* JS numbers are modelled as rationals (`Rat`); `NaN`/`Infinity` are outside the
  model.
* Functions that contain a `throw` statement in the source return
  `Except String _` (`.error` = the exception propagates to the caller);
  functions with no `throw` return their structured result object directly.
* `String.prototype.trim` / `toLowerCase` are embedded as the structural
  functions `jsTrim` / `jsToLower` over ASCII (the only code points the
  repository feeds them).
-/

/-- ASCII whitespace as recognised by JS `String.prototype.trim`. -/
def isJsSpace (c : Char) : Bool :=
  c == ' ' || c == '\t' || c == '\n' || c == '\r' || c == '\x0b' || c == '\x0c'

/-- Embedding of JS `String.prototype.trim` (ASCII whitespace). -/
def jsTrim (s : String) : String :=
  String.mk (((s.data.dropWhile isJsSpace).reverse.dropWhile isJsSpace).reverse)

/-- Lower-case an ASCII letter, as `String.prototype.toLowerCase` does. -/
def asciiLower (c : Char) : Char :=
  if 'A' ≤ c ∧ c ≤ 'Z' then Char.ofNat (c.toNat + 32) else c

/-- Embedding of JS `String.prototype.toLowerCase` (ASCII). -/
def jsToLower (s : String) : String :=
  String.mk (s.data.map asciiLower)

/-- Does `needle` occur as a prefix of `hay`?  (Char-list helper for JS
`String.prototype.includes`.) -/
def listPrefixEq : List Char → List Char → Bool
  | [], _ => true
  | _ :: _, [] => false
  | a :: as, b :: bs => a == b && listPrefixEq as bs

/-- Does `needle` occur as a contiguous substring of `hay`?  Embedding of JS
`String.prototype.includes`. -/
def hasSub (needle hay : List Char) : Bool :=
  match hay with
  | [] => listPrefixEq needle []
  | _ :: t => listPrefixEq needle hay || hasSub needle t

/-- `Map.get` on an association-list table. -/
def alookup {α : Type} : List (String × α) → String → Option α
  | [], _ => none
  | (k', v) :: rest, k => if k' = k then some v else alookup rest k

/-- `Map.set` on an association-list table: replaces the entry in place when the
key is present, appends otherwise (JS `Map` insertion-order semantics). -/
def aset {α : Type} : List (String × α) → String → α → List (String × α)
  | [], k, v => [(k, v)]
  | (k', v') :: rest, k, v =>
      if k' = k then (k, v) :: rest else (k', v') :: aset rest k v

/-- `Map.delete` on an association-list table (keys are unique). -/
def aerase {α : Type} : List (String × α) → String → List (String × α)
  | [], _ => []
  | (k', v') :: rest, k => if k' = k then rest else (k', v') :: aerase rest k

theorem alookup_aset_self {α : Type} (m : List (String × α)) (k : String) (v : α) :
    alookup (aset m k v) k = some v := by
  induction m with
  | nil => simp [aset, alookup]
  | cons p rest ih =>
      obtain ⟨k', v'⟩ := p
      by_cases h : k' = k
      · simp [aset, alookup, h]
      · simp [aset, alookup, h, ih]

/-- JS structured values: JSON trees plus a marker `cyclic` for an object value
that contains a reference cycle (the input class on which `JSON.stringify`
throws a `TypeError`). -/
inductive JsVal where
  | null
  | bool (b : Bool)
  | num (q : Rat)
  | str (s : String)
  | arr (elems : List JsVal)
  | obj (fields : List (String × JsVal))
  | cyclic

mutual

/-- Does the value contain a reference cycle?  (`JSON.stringify` throws exactly
on these values.) -/
def containsCycle : JsVal → Bool
  | .cyclic => true
  | .arr xs => containsCycleList xs
  | .obj fs => containsCycleFields fs
  | _ => false

def containsCycleList : List JsVal → Bool
  | [] => false
  | x :: xs => containsCycle x || containsCycleList xs

def containsCycleFields : List (String × JsVal) → Bool
  | [] => false
  | (_, v) :: fs => containsCycle v || containsCycleFields fs

end

/-- Embedding of `JSON.parse(JSON.stringify(v))`: on a cycle-free JSON tree the
round trip returns an equal (but structurally fresh) tree, on a cyclic value
`JSON.stringify` throws, modelled as `none`. -/
def jsonClone (v : JsVal) : Option JsVal :=
  if containsCycle v then none else some v

/-- JS truthiness of a structured value. -/
def jsTruthy (v : JsVal) : Bool :=
  match v with
  | .null => false
  | .bool b => b
  | .num q => decide (q ≠ 0)
  | .str s => decide (s ≠ "")
  | .arr _ => true
  | .obj _ => true
  | .cyclic => true

/-- `v && typeof v === 'object'`: the guard `beginTransaction` applies to its
payload.  Arrays, plain objects and cyclic objects pass; `null`, booleans,
numbers and strings do not. -/
def jsTruthyObject (v : JsVal) : Bool :=
  match v with
  | .arr _ => true
  | .obj _ => true
  | .cyclic => true
  | _ => false

theorem jsTruthyObject_of_containsCycle {v : JsVal} (h : containsCycle v = true) :
    jsTruthyObject v = true := by
  cases v <;> simp_all [containsCycle, jsTruthyObject]

/-- Property read `fields["type"]` etc. on a JS object value. -/
def objGet (v : JsVal) (key : String) : Option JsVal :=
  match v with
  | .obj fs => alookup fs key
  | _ => none

/-- `x || fallback` on an optional JS value. -/
def jsValOr (x : Option JsVal) (fallback : JsVal) : JsVal :=
  match x with
  | some v => if jsTruthy v then v else fallback
  | none => fallback

/-! ## Lock Manager (`lock-manager.js`)

State: the module-level `locks : Map`, plus the fresh-token counter modelling
`generateLockId` (`crypto.randomBytes(16).toString('hex')`): tokens are the
naturals handed out in order, so every token generated is new. -/

structure LockData where
  lockId : Nat
  timestamp : Int
  timeout : Int

structure LockState where
  locks : List (String × LockData)
  nextId : Nat

structure AcquireResult where
  acquired : Bool
  lockId : Option Nat
  error : Option String

/-- The busy error message built by `acquireLock`:
`` `Recurso já está em uso. Tente novamente em ${Math.ceil(remaining / 1000)}s` ``.
The branch that builds it guarantees `remaining > 0`, and for positive `r`
`Math.ceil(r / 1000) = (r.toNat + 999) / 1000`. -/
def busyMsg (s : Nat) : String :=
  "Recurso já está em uso. Tente novamente em " ++ toString s ++ "s"

/-- The shared tail of `acquireLock` (lines 117-137 of the source): generate a
lock id, store the entry, return success. -/
def insertLock (resourceId : String) (safeTimeout now : Int) (st : LockState) :
    AcquireResult × LockState :=
  (⟨true, some st.nextId, none⟩,
   ⟨aset st.locks resourceId ⟨st.nextId, now, safeTimeout⟩, st.nextId + 1⟩)

/-- `acquireLock(resource, timeout)` of `lock-manager.js`.  `safeTimeout` is
`Math.min(timeout, 600000)`; an unexpired holder produces the busy error with
the remaining time, an expired holder is deleted and replaced in the same
call. -/
def acquireLock (resource : String) (timeout now : Int) (st : LockState) :
    AcquireResult × LockState :=
  if resource = "" then
    (⟨false, none, some "Identificador de recurso inválido"⟩, st)
  else if timeout ≤ 0 then
    (⟨false, none, some "Timeout deve ser um número positivo em milissegundos"⟩, st)
  else
    match alookup st.locks (jsTrim resource) with
    | some existingLock =>
        if existingLock.timeout ≤ now - existingLock.timestamp then
          insertLock (jsTrim resource) (min timeout 600000) now
            ⟨aerase st.locks (jsTrim resource), st.nextId⟩
        else
          (⟨false, none,
            some (busyMsg (((existingLock.timeout - (now - existingLock.timestamp)).toNat
              + 999) / 1000))⟩, st)
    | none => insertLock (jsTrim resource) (min timeout 600000) now st

structure ReleaseResult where
  released : Bool
  error : Option String

/-- `releaseLock(resource)` of `lock-manager.js`. -/
def releaseLock (resource : String) (st : LockState) : ReleaseResult × LockState :=
  if resource = "" then
    (⟨false, some "Identificador de recurso inválido"⟩, st)
  else
    match alookup st.locks (jsTrim resource) with
    | none => (⟨false, some "Lock não existe para este recurso"⟩, st)
    | some _ => (⟨true, none⟩, ⟨aerase st.locks (jsTrim resource), st.nextId⟩)

/-! ## Transaction Log (`transaction-log.js`)

State: the module-level `transactions : Map`.  `generateTransactionId` is
modelled by passing the generated id (`freshId`) as an argument.
`beginTransaction` contains `throw` statements, so it returns
`Except String _`; `rollbackTransaction` re-serialises the stored backup, which
throws if that backup were cyclic, so it returns `Except String _` as well;
`commitTransaction` cannot throw. -/

inductive TxStatus where
  | pending
  | committed
  | rolled_back
deriving DecidableEq

/-- The strings of `TRANSACTION_STATES`. -/
def txStatusStr : TxStatus → String
  | .pending => "pending"
  | .committed => "committed"
  | .rolled_back => "rolled_back"

structure Txn where
  operationData : JsVal
  backup : JsVal
  status : TxStatus
  timestamp : Int
  completedAt : Option Int

abbrev TxnState := List (String × Txn)

structure BeginResult where
  transactionId : String
  status : TxStatus
  backup : JsVal

/-- `beginTransaction(operationData)` of `transaction-log.js`.  The payload must
be a truthy object; the deep copy `JSON.parse(JSON.stringify(payload))` fails on
cyclic payloads; on success the record is stored with an (equal) second deep
copy as `operationData` and the first as `backup`. -/
def beginTransaction (operationData : JsVal) (now : Int) (st : TxnState)
    (freshId : String) : Except String BeginResult × TxnState :=
  if jsTruthyObject operationData = false then
    (.error "Dados da operação inválidos", st)
  else
    match jsonClone operationData with
    | none => (.error "Não foi possível fazer backup dos dados", st)
    | some backup =>
        (.ok ⟨freshId, .pending, backup⟩,
         aset st freshId ⟨backup, backup, .pending, now, none⟩)

structure CommitResult where
  status : Option TxStatus
  error : Option String

/-- The state-conflict message of `commitTransaction`:
`` `Transação não está em estado pendente (status: ${txn.status})` ``. -/
def commitConflictMsg (s : TxStatus) : String :=
  "Transação não está em estado pendente (status: " ++ txStatusStr s ++ ")"

/-- `commitTransaction(transactionId)` of `transaction-log.js`. -/
def commitTransaction (transactionId : String) (now : Int) (st : TxnState) :
    CommitResult × TxnState :=
  if transactionId = "" then
    (⟨none, some "ID de transação inválido"⟩, st)
  else
    match alookup st (jsTrim transactionId) with
    | none => (⟨none, some "Transação não encontrada"⟩, st)
    | some txn =>
        if txn.status = TxStatus.pending then
          (⟨some .committed, none⟩,
           aset st (jsTrim transactionId)
             { txn with status := .committed, completedAt := some now })
        else
          (⟨none, some (commitConflictMsg txn.status)⟩, st)

structure RollbackResult where
  status : Option TxStatus
  backup : Option JsVal
  error : Option String

/-- The state-conflict message of `rollbackTransaction`:
`` `Rollback não é possível para transação em estado: ${txn.status}` ``. -/
def rollbackConflictMsg (s : TxStatus) : String :=
  "Rollback não é possível para transação em estado: " ++ txStatusStr s

/-- `rollbackTransaction(transactionId)` of `transaction-log.js`.  On a pending
transaction it returns a fresh deep copy of the stored backup and marks the
record rolled back; the copy step throws (only) if the stored backup were
cyclic, which reachable records never are. -/
def rollbackTransaction (transactionId : String) (now : Int) (st : TxnState) :
    Except String RollbackResult × TxnState :=
  if transactionId = "" then
    (.ok ⟨none, none, some "ID de transação inválido"⟩, st)
  else
    match alookup st (jsTrim transactionId) with
    | none => (.ok ⟨none, none, some "Transação não encontrada"⟩, st)
    | some txn =>
        if txn.status = TxStatus.pending then
          match jsonClone txn.backup with
          | none => (.error "Converting circular structure to JSON", st)
          | some backup =>
              (.ok ⟨some .rolled_back, some backup, none⟩,
               aset st (jsTrim transactionId)
                 { txn with status := .rolled_back, completedAt := some now })
        else
          (.ok ⟨none, none, some (rollbackConflictMsg txn.status)⟩, st)

structure ActiveTxn where
  transactionId : String
  operationType : JsVal
  startedAt : Int
  duration : Int

/-- `getActiveTransactions()` of `transaction-log.js`: the pending entries, in
table order, with `operationType = txn.operationData.type || 'unknown'`. -/
def getActiveTransactions (now : Int) (st : TxnState) : List ActiveTxn :=
  (st.filter fun p => decide (p.2.status = TxStatus.pending)).map fun p =>
    ⟨p.1, jsValOr (objGet p.2.operationData "type") (.str "unknown"),
     p.2.timestamp, now - p.2.timestamp⟩

structure TxStats where
  total : Nat
  pending : Nat
  committed : Nat
  rolledBack : Nat

/-- `getTransactionStats()` of `transaction-log.js`. -/
def getTransactionStats (st : TxnState) : TxStats :=
  ⟨st.length,
   (st.filter fun p => decide (p.2.status = TxStatus.pending)).length,
   (st.filter fun p => decide (p.2.status = TxStatus.committed)).length,
   (st.filter fun p => decide (p.2.status = TxStatus.rolled_back)).length⟩

/-! ## NSEC3 Async Operation Tracker (`nsec3-async-handler.js`)

State: the module-level `operations : Map`.  The `progressCallbacks` map only
feeds observer notifications (each wrapped in its own `try/catch`), it never
changes an operation record, so it is not part of the modelled state. -/

def BASE_TIMEOUT_MS : Int := 60000

def DOMAIN_TIMEOUT_MS : Int := 30000

def MAX_TIMEOUT_MS : Int := 600000

inductive OpStatus where
  | queued
  | in_progress
  | completed
  | failed
  | cancelled
deriving DecidableEq

/-- The `domains` argument of the tracker: any JS value, split into
`Array.isArray` = true (with its elements) or not. -/
inductive DomainsArg where
  | arr (xs : List JsVal)
  | notArr

/-- The per-entry filter of `calculateNsec3Timeout`:
`d && typeof d === 'string' && d.length > 0`, i.e. a non-empty string. -/
def isValidDomainEntry (v : JsVal) : Bool :=
  match v with
  | .str s => decide (s ≠ "")
  | _ => false

/-- `calculateNsec3Timeout(domains)` of `nsec3-async-handler.js`:
`min(60000 + 30000 × count, 600000)` over the valid entries; a non-array
argument yields the base timeout. -/
def calculateNsec3Timeout (domains : DomainsArg) : Int :=
  match domains with
  | .notArr => BASE_TIMEOUT_MS
  | .arr xs =>
      min (BASE_TIMEOUT_MS
            + DOMAIN_TIMEOUT_MS * ((xs.filter isValidDomainEntry).length : Int))
        MAX_TIMEOUT_MS

structure Operation where
  operationId : String
  type : String
  domains : List JsVal
  status : OpStatus
  progress : Rat
  result : Option JsVal
  error : Option String
  timeout : Int
  startedAt : Int
  completedAt : Option Int
  totalSteps : Nat
  completedSteps : Rat

abbrev OpsState := List (String × Operation)

structure StartResult where
  operationId : Option String
  status : Option OpStatus
  timeout : Option Int
  error : Option String

/-- The tail of `startAsyncOperation` after the final operation id is fixed
(duplicate check, timeout computation, record creation). -/
def startAsyncOperationStore (finalId type : String) (ds : List JsVal) (now : Int)
    (st : OpsState) : StartResult × OpsState :=
  match alookup st finalId with
  | some _ => (⟨some finalId, none, none, some "Operação com esse ID já existe"⟩, st)
  | none =>
      (⟨some finalId, some .queued, some (calculateNsec3Timeout (.arr ds)), none⟩,
       aset st finalId
         ⟨finalId, jsToLower type, ds, .queued, 0, none, none,
          calculateNsec3Timeout (.arr ds), now, none, ds.length, 0⟩)

/-- `startAsyncOperation(operationId, type, domains)` of
`nsec3-async-handler.js`.  A falsy (absent or empty) id is replaced by a
generated one, modelled by the `freshId` argument. -/
def startAsyncOperation (operationId : Option String) (type : String)
    (domains : DomainsArg) (now : Int) (freshId : String) (st : OpsState) :
    StartResult × OpsState :=
  if type = "" then
    (⟨none, none, none, some "Tipo de operação inválido"⟩, st)
  else
    match domains with
    | .notArr => (⟨none, none, none, some "Lista de domínios inválida ou vazia"⟩, st)
    | .arr ds =>
        if ds.isEmpty then
          (⟨none, none, none, some "Lista de domínios inválida ou vazia"⟩, st)
        else
          match operationId with
          | some s =>
              if s = "" then startAsyncOperationStore freshId type ds now st
              else startAsyncOperationStore s type ds now st
          | none => startAsyncOperationStore freshId type ds now st

structure OpStatusResult where
  status : Option OpStatus
  progress : Rat
  completedSteps : Option Rat
  totalSteps : Option Nat
  elapsed : Option Int
  timeout : Option Int
  result : Option JsVal
  error : Option String

/-- The status projection `getOperationStatus` returns for a found record. -/
def mkOpStatus (op : Operation) (now : Int) : OpStatusResult :=
  ⟨some op.status, op.progress, some op.completedSteps, some op.totalSteps,
   some (now - op.startedAt), some op.timeout, op.result, op.error⟩

/-- `getOperationStatus(operationId)` of `nsec3-async-handler.js`.  The read
path detects timeout: an `in_progress` record whose elapsed time exceeds its
timeout is flipped to `failed` as a side effect of the read. -/
def getOperationStatus (operationId : String) (now : Int) (st : OpsState) :
    OpStatusResult × OpsState :=
  if operationId = "" then
    (⟨none, 0, none, none, none, none, none, some "ID de operação inválido"⟩, st)
  else
    match alookup st (jsTrim operationId) with
    | none =>
        (⟨none, 0, none, none, none, none, none, some "Operação não encontrada"⟩, st)
    | some operation =>
        if operation.status = OpStatus.in_progress
            ∧ operation.timeout < now - operation.startedAt then
          let timedOut : Operation :=
            { operation with
                status := .failed
                error := some "Operação expirou (timeout)"
                completedAt := some now }
          (mkOpStatus timedOut now, aset st (jsTrim operationId) timedOut)
        else
          (mkOpStatus operation now, st)

/-- The `progress` argument of `updateOperationProgress`: a JS number (`num`) or
a value of any other runtime type (`notNum`). -/
inductive JsNum where
  | num (q : Rat)
  | notNum

/-- The optional `statusData` argument of `updateOperationProgress`:
`completedSteps` is used only when it is a number, `result` only on
completion. -/
structure StatusData where
  completedSteps : Option Rat
  result : Option JsVal

structure UpdateResult where
  updated : Bool
  error : Option String

/-- The record mutation performed by a successful `updateOperationProgress`
call: progress write, optional `completedSteps` write, then the two sequential
state-transition checks of the source (queued→in_progress on positive progress,
then in_progress→completed at exactly 100). -/
def updateProgressRecord (operation : Operation) (p : Rat) (statusData : StatusData)
    (now : Int) : Operation :=
  let op1 : Operation :=
    { operation with
        progress := p
        completedSteps :=
          match statusData.completedSteps with
          | some c => c
          | none => operation.completedSteps }
  let op2 : Operation :=
    if op1.status = OpStatus.queued ∧ 0 < p then
      { op1 with status := .in_progress }
    else op1
  if p = 100 ∧ op2.status = OpStatus.in_progress then
    { op2 with
        status := .completed
        completedAt := some now
        result := some (jsValOr statusData.result (.obj [])) }
  else op2

/-- `updateOperationProgress(operationId, progress, statusData)` of
`nsec3-async-handler.js`.  Validation precedes any mutation; a queued record
receiving positive progress moves to `in_progress`; a record that is
`in_progress` at exactly 100 completes, freezing `statusData.result || {}` and
stamping `completedAt`. -/
def updateOperationProgress (operationId : String) (progress : JsNum)
    (statusData : StatusData) (now : Int) (st : OpsState) :
    UpdateResult × OpsState :=
  if operationId = "" then
    (⟨false, some "ID de operação inválido"⟩, st)
  else
    match progress with
    | .notNum => (⟨false, some "Progresso deve ser um número entre 0 e 100"⟩, st)
    | .num p =>
        if p < 0 ∨ 100 < p then
          (⟨false, some "Progresso deve ser um número entre 0 e 100"⟩, st)
        else
          match alookup st (jsTrim operationId) with
          | none => (⟨false, some "Operação não encontrada"⟩, st)
          | some operation =>
              (⟨true, none⟩,
               aset st (jsTrim operationId)
                 (updateProgressRecord operation p statusData now))

/-- `failOperation(operationId, errorMessage)` of `nsec3-async-handler.js`:
forces the record to `failed` whatever its current state, with a default
message for a falsy `errorMessage`. -/
def failOperation (operationId : String) (errorMessage : String) (now : Int)
    (st : OpsState) : UpdateResult × OpsState :=
  if operationId = "" then
    (⟨false, some "ID de operação inválido"⟩, st)
  else
    match alookup st (jsTrim operationId) with
    | none => (⟨false, some "Operação não encontrada"⟩, st)
    | some operation =>
        let failedOp : Operation :=
          { operation with
              status := .failed
              error := some (if errorMessage = "" then
                "Operação falhou sem detalhes de erro" else errorMessage)
              completedAt := some now }
        (⟨true, none⟩, aset st (jsTrim operationId) failedOp)

/-! ## Error Mapper (`error-mapper.js`) -/

inductive ErrorType where
  | EEXIST
  | ENOENT
  | EPERM
  | EBUSY
  | ETIMEDOUT
  | ECONNREFUSED
  | RATE_LIMITED
  | QUOTA_EXCEEDED
  | INVALID_INPUT
  | VALIDATION_ERROR
  | UNAUTHORIZED
  | FORBIDDEN
  | INTERNAL_ERROR
  | SERVICE_UNAVAILABLE
  | UNKNOWN
deriving DecidableEq

/-- One row of the `RETRY_CONFIG` table; `backoffMs` is `none` for the rows the
source leaves it out of (the non-retryable kinds). -/
structure RetryConfigEntry where
  shouldRetry : Bool
  maxRetries : Nat
  backoffMs : Option Int
  description : String

/-- The `RETRY_CONFIG` table of `error-mapper.js`. -/
def RETRY_CONFIG : ErrorType → RetryConfigEntry
  | .EEXIST => ⟨false, 0, none, "Arquivo ou recurso já existe"⟩
  | .ENOENT => ⟨false, 0, none, "Arquivo ou recurso não encontrado"⟩
  | .EPERM => ⟨false, 0, none, "Operação não permitida (permissão negada)"⟩
  | .EBUSY => ⟨true, 3, some 1000, "Recurso ocupado, tente novamente"⟩
  | .ETIMEDOUT => ⟨true, 2, some 2000, "Operação expirou, tente novamente"⟩
  | .ECONNREFUSED => ⟨true, 3, some 1000, "Conexão recusada, serviço pode estar indisponível"⟩
  | .RATE_LIMITED => ⟨true, 5, some 5000, "Limite de taxa excedido, aguarde antes de tentar novamente"⟩
  | .QUOTA_EXCEEDED => ⟨false, 0, none, "Cota de recursos excedida"⟩
  | .INVALID_INPUT => ⟨false, 0, none, "Entrada inválida, verifique parâmetros"⟩
  | .VALIDATION_ERROR => ⟨false, 0, none, "Erro de validação"⟩
  | .UNAUTHORIZED => ⟨false, 0, none, "Autenticação falhou"⟩
  | .FORBIDDEN => ⟨false, 0, none, "Acesso proibido"⟩
  | .INTERNAL_ERROR => ⟨true, 2, some 2000, "Erro interno do servidor, tente novamente"⟩
  | .SERVICE_UNAVAILABLE => ⟨true, 3, some 3000, "Serviço temporariamente indisponível"⟩
  | .UNKNOWN => ⟨true, 1, some 1000, "Erro desconhecido"⟩

/-- `calculateSeverity(errorType)` of `error-mapper.js`. -/
def calculateSeverity : ErrorType → String
  | .EEXIST => "medium"
  | .QUOTA_EXCEEDED => "medium"
  | .EPERM => "high"
  | .FORBIDDEN => "high"
  | .UNAUTHORIZED => "high"
  | .INTERNAL_ERROR => "high"
  | .SERVICE_UNAVAILABLE => "high"
  | .ENOENT => "low"
  | .INVALID_INPUT => "low"
  | .VALIDATION_ERROR => "low"
  | .EBUSY => "medium"
  | .ETIMEDOUT => "medium"
  | .ECONNREFUSED => "medium"
  | .RATE_LIMITED => "medium"
  | .UNKNOWN => "medium"

structure RetryPolicy where
  shouldRetry : Bool
  maxRetries : Nat
  backoffMs : Int

structure MappedError where
  type : ErrorType
  message : String
  originalMessage : String
  retry : RetryPolicy
  severity : String
  timestamp : Int

/-- `createMappedError(errorType, originalMessage)` of `error-mapper.js`
(restricted to the valid `ERROR_TYPES`, which is all this repository passes):
`retry.backoffMs` is `retryConfig.backoffMs || 0`. -/
def createMappedError (errorType : ErrorType) (originalMessage : String)
    (now : Int) : MappedError :=
  ⟨errorType, (RETRY_CONFIG errorType).description, originalMessage,
   ⟨(RETRY_CONFIG errorType).shouldRetry, (RETRY_CONFIG errorType).maxRetries,
    ((RETRY_CONFIG errorType).backoffMs).getD 0⟩,
   calculateSeverity errorType, now⟩

/-- `isRecoverable(mappedError)` of `error-mapper.js` (`none` = a falsy argument
or one without a `retry` member). -/
def isRecoverable (mappedError : Option MappedError) : Bool :=
  match mappedError with
  | none => false
  | some m => m.retry.shouldRetry && decide (0 < m.retry.maxRetries)

/-- `getRetryBackoff(mappedError, attemptNumber)` of `error-mapper.js`:
`(mappedError.retry.backoffMs || 1000) * 2 ^ min(attemptNumber, 3)`.  Note the
`|| 1000`: a stored backoff of `0` is falsy and is replaced by the default
base. -/
def getRetryBackoff (mappedError : Option MappedError) (attemptNumber : Nat) : Int :=
  match mappedError with
  | none => 0
  | some m =>
      (if m.retry.backoffMs = 0 then 1000 else m.retry.backoffMs)
        * 2 ^ min attemptNumber 3

/-- The `ERROR_PATTERN_MAP` table of `error-mapper.js`, in source order
(`Object.entries` iterates insertion order; the first matching substring
wins). -/
def ERROR_PATTERN_MAP : List (String × ErrorType) :=
  [("file exists", .EEXIST), ("no such file", .ENOENT), ("not found", .ENOENT),
   ("permission denied", .EPERM), ("resource busy", .EBUSY),
   ("timeout", .ETIMEDOUT), ("timed out", .ETIMEDOUT),
   ("connection refused", .ECONNREFUSED), ("rate limit", .RATE_LIMITED),
   ("too many requests", .RATE_LIMITED), ("quota", .QUOTA_EXCEEDED),
   ("invalid", .INVALID_INPUT), ("unauthorized", .UNAUTHORIZED),
   ("forbidden", .FORBIDDEN), ("internal server error", .INTERNAL_ERROR),
   ("service unavailable", .SERVICE_UNAVAILABLE), ("bad request", .INVALID_INPUT)]

/-- The `ERROR_TYPES[errorCode]` lookup: a string is a known machine-readable
code iff it spells one of the enumeration members. -/
def parseErrorType (s : String) : Option ErrorType :=
  if s = "EEXIST" then some .EEXIST
  else if s = "ENOENT" then some .ENOENT
  else if s = "EPERM" then some .EPERM
  else if s = "EBUSY" then some .EBUSY
  else if s = "ETIMEDOUT" then some .ETIMEDOUT
  else if s = "ECONNREFUSED" then some .ECONNREFUSED
  else if s = "RATE_LIMITED" then some .RATE_LIMITED
  else if s = "QUOTA_EXCEEDED" then some .QUOTA_EXCEEDED
  else if s = "INVALID_INPUT" then some .INVALID_INPUT
  else if s = "VALIDATION_ERROR" then some .VALIDATION_ERROR
  else if s = "UNAUTHORIZED" then some .UNAUTHORIZED
  else if s = "FORBIDDEN" then some .FORBIDDEN
  else if s = "INTERNAL_ERROR" then some .INTERNAL_ERROR
  else if s = "SERVICE_UNAVAILABLE" then some .SERVICE_UNAVAILABLE
  else if s = "UNKNOWN" then some .UNKNOWN
  else none

/-- The pattern-matching fallback of `mapWhmError`: lower-case the message and
take the first `ERROR_PATTERN_MAP` row whose pattern occurs in it, defaulting
to `UNKNOWN`. -/
def patternClassify (message : String) (now : Int) : MappedError :=
  match ERROR_PATTERN_MAP.find? (fun p => hasSub p.1.data (jsToLower message).data) with
  | some p => createMappedError p.2 message now
  | none => createMappedError .UNKNOWN message now

/-- The common classification tail of `mapWhmError`: a recognised explicit code
wins, otherwise the message patterns decide. -/
def classifyFrom (code : Option String) (message : String) (now : Int) : MappedError :=
  match code with
  | some c =>
      match parseErrorType c with
      | some t => createMappedError t message now
      | none => patternClassify message now
  | none => patternClassify message now

/-- First-truthy choice on optional strings (`a || b` where `''` is falsy). -/
def truthyStr (x : Option String) : Bool :=
  match x with
  | some s => decide (s ≠ "")
  | none => false

/-- The raw argument of `mapWhmError`: a falsy value, a string, an `Error`
instance (whose `message` read never serialises the object), or a plain object
with optional `code`/`errno`/`message`/`msg` members.  `cyclic` records whether
`JSON.stringify` would throw on it and `stringified` is its serialisation when
it would not. -/
inductive RawError where
  | nullish
  | str (s : String)
  | errObj (code : Option String) (message : Option String)
  | obj (code : Option String) (errno : Option String) (message : Option String)
      (msg : Option String) (cyclic : Bool) (stringified : String)

/-- `mapWhmError(whmError)` of `error-mapper.js`.  The only `.error` outcome is
the uncaught `TypeError` of `JSON.stringify` when a plain object with no truthy
`message`/`msg` member is cyclic. -/
def mapWhmError (whmError : RawError) (now : Int) : Except String MappedError :=
  match whmError with
  | .nullish => .ok (createMappedError .UNKNOWN "Erro vazio ou nulo" now)
  | .str s =>
      if s = "" then .ok (createMappedError .UNKNOWN "Erro vazio ou nulo" now)
      else .ok (classifyFrom none s now)
  | .errObj code message => .ok (classifyFrom code (message.getD "") now)
  | .obj code errno message msg cyclic stringified =>
      let errorCode := if truthyStr code then code else errno
      if truthyStr message then
        .ok (classifyFrom errorCode ((message.getD "")) now)
      else if truthyStr msg then
        .ok (classifyFrom errorCode ((msg.getD "")) now)
      else if cyclic then
        .error "Converting circular structure to JSON"
      else
        .ok (classifyFrom errorCode stringified now)

/-! ## Verified properties -/

/-- Characterisation of a successful `acquireLock` call: it can only have gone
through the lock-creation tail, so the arguments were valid, the returned token
is the fresh one, the counter advanced, and the table now holds the new entry
under the trimmed resource key with `safeTimeout = min timeout 600000`. -/
theorem acquireLock_success {R : String} {T t0 : Int} {st : LockState}
    (h : (acquireLock R T t0 st).1.acquired = true) :
    R ≠ "" ∧ 0 < T
  ∧ (acquireLock R T t0 st).1.lockId = some st.nextId
  ∧ (acquireLock R T t0 st).2.nextId = st.nextId + 1
  ∧ alookup (acquireLock R T t0 st).2.locks (jsTrim R)
      = some ⟨st.nextId, t0, min T 600000⟩ := by
  by_cases hR : R = ""
  · simp [acquireLock, hR] at h
  by_cases hT : T ≤ 0
  · simp [acquireLock, hR, hT] at h
  refine ⟨hR, by omega, ?_⟩
  cases hl : alookup st.locks (jsTrim R) with
  | none =>
      simp [acquireLock, hR, hT, hl, insertLock, alookup_aset_self]
  | some e =>
      by_cases hex : e.timeout ≤ t0 - e.timestamp
      · simp [acquireLock, hR, hT, hl, hex, insertLock, alookup_aset_self]
      · simp [acquireLock, hR, hT, hl, hex] at h

/-- C1: after a successful `acquireLock(R, T)`, any `acquireLock(R, ·)` issued
while less than the stored timeout (`min T 600000`) has elapsed returns
`acquired = false` with no lock token and the busy error carrying a reported
remaining time strictly greater than zero, and the lock table is left exactly
as it was. -/
theorem C1_double_acquire_busy (R : String) (T T2 t0 t1 : Int) (st : LockState)
    (hT2 : 0 < T2)
    (hacq : (acquireLock R T t0 st).1.acquired = true)
    (hwin : t1 - t0 < min T 600000) :
    (acquireLock R T2 t1 (acquireLock R T t0 st).2).1.acquired = false
  ∧ (acquireLock R T2 t1 (acquireLock R T t0 st).2).1.lockId = none
  ∧ (∃ s, 0 < s ∧ (acquireLock R T2 t1 (acquireLock R T t0 st).2).1.error
      = some (busyMsg s))
  ∧ (acquireLock R T2 t1 (acquireLock R T t0 st).2).2 = (acquireLock R T t0 st).2 := by
  obtain ⟨hR, hT, _, _, hlook⟩ := acquireLock_success hacq
  set st1 := (acquireLock R T t0 st).2 with hst1
  clear_value st1
  have hT2' : ¬ T2 ≤ 0 := by omega
  have hnotexp : ¬ (min T 600000 ≤ t1 - t0) := by omega
  refine ⟨?_, ?_, ⟨((min T 600000 - (t1 - t0)).toNat + 999) / 1000, by omega, ?_⟩, ?_⟩ <;>
    simp [acquireLock, hR, hT2', hlook, hnotexp]

/-- C5: once at least `T` has elapsed since a successful `acquireLock(R, T)`, a
subsequent `acquireLock(R, T2)` succeeds without any intervening `releaseLock`:
the stale entry is replaced in that same call by a fresh lock carrying a new
(distinct) token, the new acquisition time and `min T2 600000`. -/
theorem C5_expired_reacquire (R : String) (T T2 t0 t1 : Int) (st : LockState)
    (hT2 : 0 < T2)
    (hacq : (acquireLock R T t0 st).1.acquired = true)
    (helapsed : T ≤ t1 - t0) :
    (acquireLock R T2 t1 (acquireLock R T t0 st).2).1.acquired = true
  ∧ (acquireLock R T2 t1 (acquireLock R T t0 st).2).1.lockId
      = some (acquireLock R T t0 st).2.nextId
  ∧ (acquireLock R T2 t1 (acquireLock R T t0 st).2).1.lockId
      ≠ (acquireLock R T t0 st).1.lockId
  ∧ alookup (acquireLock R T2 t1 (acquireLock R T t0 st).2).2.locks (jsTrim R)
      = some ⟨(acquireLock R T t0 st).2.nextId, t1, min T2 600000⟩ := by
  obtain ⟨hR, hT, hid1, hnext, hlook⟩ := acquireLock_success hacq
  set st1 := (acquireLock R T t0 st).2 with hst1
  clear_value st1
  set r1 := (acquireLock R T t0 st).1 with hr1
  clear_value r1
  have hT2' : ¬ T2 ≤ 0 := by omega
  have hexp : min T 600000 ≤ t1 - t0 := by omega
  refine ⟨?_, ?_, ?_, ?_⟩ <;>
    simp [acquireLock, hR, hT2', hlook, hexp, insertLock, alookup_aset_self,
      hid1, hnext]

/-- Witness for C1 at a concrete input: the second acquisition of
`domain:example.com` 10 s into a 30 s lock is refused with a busy error. -/
theorem C1_witness :
    (acquireLock "domain:example.com" 30000 10000
        (acquireLock "domain:example.com" 30000 0 ⟨[], 0⟩).2).1.acquired = false
  ∧ (∃ s, 0 < s ∧ (acquireLock "domain:example.com" 30000 10000
        (acquireLock "domain:example.com" 30000 0 ⟨[], 0⟩).2).1.error
      = some (busyMsg s)) := by
  have h := C1_double_acquire_busy "domain:example.com" 30000 30000 0 10000 ⟨[], 0⟩
    (by decide) (by decide) (by decide)
  exact ⟨h.1, h.2.2.1⟩

/-- Witness for C5 at a concrete input: re-acquiring `domain:example.com` 30 s
after a 30 s acquisition succeeds with a different token and no release. -/
theorem C5_witness :
    (acquireLock "domain:example.com" 30000 30000
        (acquireLock "domain:example.com" 30000 0 ⟨[], 0⟩).2).1.acquired = true
  ∧ (acquireLock "domain:example.com" 30000 30000
        (acquireLock "domain:example.com" 30000 0 ⟨[], 0⟩).2).1.lockId
      ≠ (acquireLock "domain:example.com" 30000 0 ⟨[], 0⟩).1.lockId := by
  have h := C5_expired_reacquire "domain:example.com" 30000 30000 0 30000 ⟨[], 0⟩
    (by decide) (by decide) (by decide)
  exact ⟨h.1, h.2.2.1⟩

/-- C2: for a cycle-free object payload `P`, `beginTransaction(P)` returns the
pending record whose backup deep-equals `P`, and `rollbackTransaction` of the
returned id returns a backup deep-equal to `P` as it was at begin time.  The
stored backup and both returned backups are fresh deep copies (the source
re-serialises on both sides), so in this value-semantics embedding the result
depends only on the table entry: no later mutation of the caller's binding can
reach it. -/
theorem C2_rollback_backup (P : JsVal) (t0 t1 : Int) (st : TxnState) (fid : String)
    (hcyc : containsCycle P = false) (hobj : jsTruthyObject P = true)
    (hfid : jsTrim fid = fid) (hfid2 : fid ≠ "") :
    (beginTransaction P t0 st fid).1 = .ok ⟨fid, .pending, P⟩
  ∧ (rollbackTransaction fid t1 (beginTransaction P t0 st fid).2).1
      = .ok ⟨some .rolled_back, some P, none⟩ := by
  have hclone : jsonClone P = some P := by simp [jsonClone, hcyc]
  constructor
  · simp [beginTransaction, hobj, hclone]
  · simp [beginTransaction, hobj, hclone, rollbackTransaction, hfid2, hfid,
      alookup_aset_self, hcyc, jsonClone]

/-- Witness for C2 at a concrete input. -/
theorem C2_witness :
    (beginTransaction (JsVal.obj [("domain", JsVal.str "example.com")]) 0 [] "txn_ab").1
      = .ok ⟨"txn_ab", .pending, JsVal.obj [("domain", JsVal.str "example.com")]⟩
  ∧ (rollbackTransaction "txn_ab" 7
        (beginTransaction (JsVal.obj [("domain", JsVal.str "example.com")]) 0 [] "txn_ab").2).1
      = .ok ⟨some .rolled_back, some (JsVal.obj [("domain", JsVal.str "example.com")]), none⟩ := by
  have h := C2_rollback_backup (JsVal.obj [("domain", JsVal.str "example.com")]) 0 7 [] "txn_ab"
    (by decide) (by decide) (by decide) (by decide)
  exact h

/-- C3: a transaction record found in the table moves only `pending → committed`
(via commit, stamping `completedAt`) or `pending → rolled_back` (via rollback);
applied to a non-pending record, either call returns the state-conflict error
naming the current state and leaves the whole table — in particular the
record's state and completion timestamp — unchanged. -/
theorem C3_txn_state_machine (id : String) (now : Int) (st : TxnState) (txn : Txn)
    (hid : id ≠ "") (hfind : alookup st (jsTrim id) = some txn) :
    (txn.status ≠ .pending →
        commitTransaction id now st = (⟨none, some (commitConflictMsg txn.status)⟩, st)
      ∧ rollbackTransaction id now st
          = (.ok ⟨none, none, some (rollbackConflictMsg txn.status)⟩, st))
  ∧ (txn.status = .pending →
        (commitTransaction id now st).1 = ⟨some .committed, none⟩
      ∧ alookup (commitTransaction id now st).2 (jsTrim id)
          = some { txn with status := .committed, completedAt := some now }
      ∧ (containsCycle txn.backup = false →
            (rollbackTransaction id now st).1
              = .ok ⟨some .rolled_back, some txn.backup, none⟩
          ∧ alookup (rollbackTransaction id now st).2 (jsTrim id)
              = some { txn with status := .rolled_back, completedAt := some now })) := by
  constructor
  · intro hs
    constructor
    · simp [commitTransaction, hid, hfind, hs]
    · simp [rollbackTransaction, hid, hfind, hs]
  · intro hs
    refine ⟨?_, ?_, ?_⟩
    · simp [commitTransaction, hid, hfind, hs]
    · simp [commitTransaction, hid, hfind, hs, alookup_aset_self]
    · intro hb
      have hclone : jsonClone txn.backup = some txn.backup := by simp [jsonClone, hb]
      exact ⟨by simp [rollbackTransaction, hid, hfind, hs, hclone],
             by simp [rollbackTransaction, hid, hfind, hs, hclone, alookup_aset_self]⟩

/-- Witness for C3 at a concrete input: committing an already-committed
transaction fails with the conflict error naming `committed` and the table is
unchanged. -/
theorem C3_witness :
    commitTransaction "txn_a" 5
        [("txn_a", (⟨JsVal.obj [], JsVal.obj [], .committed, 0, some 1⟩ : Txn))]
      = (⟨none, some (commitConflictMsg .committed)⟩,
         [("txn_a", (⟨JsVal.obj [], JsVal.obj [], .committed, 0, some 1⟩ : Txn))]) := by
  have h := C3_txn_state_machine "txn_a" 5
    [("txn_a", (⟨JsVal.obj [], JsVal.obj [], .committed, 0, some 1⟩ : Txn))]
    ⟨JsVal.obj [], JsVal.obj [], .committed, 0, some 1⟩ (by decide) (by rfl)
  exact (h.1 (by decide)).1

/-- C4: `beginTransaction` on a payload that cannot be deep-copied (one
containing a reference cycle) fails with the backup error and creates no
transaction record: the table is exactly as before, so `getActiveTransactions`
and `getTransactionStats` are unchanged. -/
theorem C4_begin_cyclic_no_record (P : JsVal) (now now2 : Int) (st : TxnState)
    (fid : String) (hcyc : containsCycle P = true) :
    beginTransaction P now st fid
      = (.error "Não foi possível fazer backup dos dados", st)
  ∧ getActiveTransactions now2 (beginTransaction P now st fid).2
      = getActiveTransactions now2 st
  ∧ getTransactionStats (beginTransaction P now st fid).2 = getTransactionStats st := by
  have hobj := jsTruthyObject_of_containsCycle hcyc
  have h1 : beginTransaction P now st fid
      = (.error "Não foi possível fazer backup dos dados", st) := by
    simp [beginTransaction, hobj, jsonClone, hcyc]
  exact ⟨h1, by rw [h1], by rw [h1]⟩

/-- Witness for C4 at a concrete input: a self-referential payload. -/
theorem C4_witness :
    beginTransaction JsVal.cyclic 0 [] "txn_a"
      = (.error "Não foi possível fazer backup dos dados", ([] : TxnState)) := by
  exact (C4_begin_cyclic_no_record JsVal.cyclic 0 0 [] "txn_a" (by decide)).1

/-- C6: for a tracked operation, a valid progress update with positive percent
while `queued` moves it to `in_progress` (and on exactly 100 straight through to
`completed`); percent exactly 100 while `in_progress` completes it, freezing
`statusData.result || {}` and stamping `completedAt`; a non-numeric or
out-of-range percent fails with the range error and mutates nothing. -/
theorem C6_update_progress_transitions (id : String) (p : Rat) (sd : StatusData)
    (now : Int) (st : OpsState) (op : Operation)
    (hid : id ≠ "") (hfind : alookup st (jsTrim id) = some op) :
    (op.status = .queued → 0 < p → p ≤ 100 →
        (updateOperationProgress id (.num p) sd now st).1 = ⟨true, none⟩
      ∧ (alookup (updateOperationProgress id (.num p) sd now st).2 (jsTrim id)).map
            (fun o => o.status)
          = some (if p = 100 then .completed else .in_progress))
  ∧ (op.status = .in_progress → p = 100 →
        (updateOperationProgress id (.num p) sd now st).1 = ⟨true, none⟩
      ∧ (alookup (updateOperationProgress id (.num p) sd now st).2 (jsTrim id)).map
            (fun o => (o.status, o.completedAt, o.result))
          = some (.completed, some now, some (jsValOr sd.result (.obj []))))
  ∧ updateOperationProgress id JsNum.notNum sd now st
      = (⟨false, some "Progresso deve ser um número entre 0 e 100"⟩, st)
  ∧ (∀ q : Rat, q < 0 ∨ 100 < q →
        updateOperationProgress id (.num q) sd now st
          = (⟨false, some "Progresso deve ser um número entre 0 e 100"⟩, st)) := by
  refine ⟨?_, ?_, ?_, ?_⟩
  · intro hq hp0 hp100
    have hrange : ¬ (p < 0 ∨ 100 < p) := by
      push_neg
      exact ⟨le_of_lt hp0, hp100⟩
    constructor
    · simp [updateOperationProgress, hid, hrange, hfind]
    · by_cases hp : p = 100 <;>
        norm_num [updateOperationProgress, hid, hrange, hfind, alookup_aset_self,
          updateProgressRecord, hq, hp0, hp]
  · intro hip hp
    have hrange : ¬ (p < 0 ∨ 100 < p) := by
      push_neg
      subst hp
      norm_num
    constructor
    · simp [updateOperationProgress, hid, hrange, hfind]
    · norm_num [updateOperationProgress, hid, hrange, hfind, alookup_aset_self,
        updateProgressRecord, hip, hp]
  · simp [updateOperationProgress, hid]
  · intro q hq
    simp [updateOperationProgress, hid, hq]

/-- Witness for C6 at a concrete input: a 50% update moves a queued operation to
`in_progress`. -/
theorem C6_witness :
    (updateOperationProgress "op1" (.num 50) ⟨none, none⟩ 7
        [("op1", (⟨"op1", "recalc", [JsVal.str "a.com"], .queued, 0, none, none,
          90000, 0, none, 1, 0⟩ : Operation))]).1 = ⟨true, none⟩
  ∧ (alookup (updateOperationProgress "op1" (.num 50) ⟨none, none⟩ 7
        [("op1", (⟨"op1", "recalc", [JsVal.str "a.com"], .queued, 0, none, none,
          90000, 0, none, 1, 0⟩ : Operation))]).2 (jsTrim "op1")).map (fun o => o.status)
      = some .in_progress := by
  have h := C6_update_progress_transitions "op1" 50 ⟨none, none⟩ 7
    [("op1", (⟨"op1", "recalc", [JsVal.str "a.com"], .queued, 0, none, none,
      90000, 0, none, 1, 0⟩ : Operation))]
    ⟨"op1", "recalc", [JsVal.str "a.com"], .queued, 0, none, none, 90000, 0, none, 1, 0⟩
    (by decide) (by rfl)
  have h1 := h.1 (by rfl) (by norm_num) (by norm_num)
  refine ⟨h1.1, ?_⟩
  rw [h1.2, if_neg (show ¬ ((50 : Rat) = 100) by norm_num)]

/-- C7: `calculateNsec3Timeout` counts only the entries that are non-empty
strings and returns `min(60000 + 30000 × count, 600000)`; a non-array argument
yields 60000; the spec's sample points hold, including the 19-entry clamp. -/
theorem C7_calculate_timeout :
    (∀ xs : List JsVal, calculateNsec3Timeout (.arr xs)
        = min (60000 + 30000 * ((xs.countP (fun v => isValidDomainEntry v)) : Int)) 600000)
  ∧ calculateNsec3Timeout .notArr = 60000
  ∧ calculateNsec3Timeout (.arr []) = 60000
  ∧ calculateNsec3Timeout (.arr [JsVal.str "a.com"]) = 90000
  ∧ calculateNsec3Timeout (.arr [JsVal.str "a", JsVal.str "b"]) = 120000
  ∧ calculateNsec3Timeout (.arr (List.replicate 19 (JsVal.str "x.com"))) = 600000
  ∧ calculateNsec3Timeout
      (.arr [JsVal.str "", JsVal.num 5, JsVal.null, JsVal.str "a.com"]) = 90000 := by
  refine ⟨?_, by decide, by decide, by decide, by decide, by decide, by decide⟩
  intro xs
  simp [calculateNsec3Timeout, BASE_TIMEOUT_MS, DOMAIN_TIMEOUT_MS, MAX_TIMEOUT_MS,
    List.countP_eq_length_filter]

/-- The operation table after starting `op1` over one domain… -/
def c8StateQueued : OpsState :=
  (startAsyncOperation (some "op1") "recalc" (.arr [JsVal.str "a.com"]) 0 "gen" []).2

/-- …and driving it to 100%, i.e. to the terminal state `completed`. -/
def c8StateCompleted : OpsState :=
  (updateOperationProgress "op1" (.num 100) ⟨none, none⟩ 1 c8StateQueued).2

/-- Counterexample to C8 as stated: `op1` is in the terminal state `completed`,
yet a subsequent `failOperation` call changes its state to `failed`. -/
theorem C8_counterexample :
    (alookup c8StateCompleted "op1").map (fun o => o.status) = some .completed
  ∧ (alookup (failOperation "op1" "falha" 2 c8StateCompleted).2 "op1").map
      (fun o => o.status) = some .failed := by
  constructor <;> rfl

/-- C8 amended: `completed`, `failed` and `cancelled` are never changed by
`updateOperationProgress` (which still reports success) or by
`getOperationStatus` (whose timeout flip touches only `in_progress` records);
`failOperation`, however, forces any existing record to `failed` whatever its
state — so `failed` is stable under all three calls, while `completed` and
`cancelled` survive only the first two. -/
theorem C8_terminal_stability (id msg : String) (now : Int) (st : OpsState)
    (op : Operation) (hid : id ≠ "") (hfind : alookup st (jsTrim id) = some op)
    (hterm : op.status = .completed ∨ op.status = .failed ∨ op.status = .cancelled) :
    (∀ (q : JsNum) (sd : StatusData),
        (alookup (updateOperationProgress id q sd now st).2 (jsTrim id)).map
            (fun o => o.status)
          = some op.status)
  ∧ (getOperationStatus id now st).1.status = some op.status
  ∧ (getOperationStatus id now st).2 = st
  ∧ (alookup (failOperation id msg now st).2 (jsTrim id)).map (fun o => o.status)
      = some .failed := by
  have hnq : ¬ op.status = OpStatus.queued := by
    rcases hterm with h | h | h <;> simp [h]
  have hnip : ¬ op.status = OpStatus.in_progress := by
    rcases hterm with h | h | h <;> simp [h]
  refine ⟨?_, ?_, ?_, ?_⟩
  · intro q sd
    cases q with
    | notNum => simp [updateOperationProgress, hid, hfind]
    | num p =>
        by_cases hr : p < 0 ∨ 100 < p
        · simp [updateOperationProgress, hid, hfind, hr]
        · simp [updateOperationProgress, hid, hfind, hr, alookup_aset_self,
            updateProgressRecord, hnq, hnip]
  · simp [getOperationStatus, hid, hfind, hnip, mkOpStatus]
  · simp [getOperationStatus, hid, hfind, hnip]
  · simp [failOperation, hid, hfind, alookup_aset_self]

/-- Witness for the amended C8 at a concrete input: a `cancelled` record is
untouched by a status read but is flipped to `failed` by `failOperation`. -/
theorem C8_witness :
    (getOperationStatus "op2" 999999 [("op2", (⟨"op2", "recalc", [JsVal.str "a.com"],
        .cancelled, 0, none, none, 90000, 0, none, 1, 0⟩ : Operation))]).2
      = [("op2", (⟨"op2", "recalc", [JsVal.str "a.com"], .cancelled, 0, none, none,
          90000, 0, none, 1, 0⟩ : Operation))]
  ∧ (alookup (failOperation "op2" "x" 999999 [("op2", (⟨"op2", "recalc",
        [JsVal.str "a.com"], .cancelled, 0, none, none, 90000, 0, none, 1, 0⟩
        : Operation))]).2 (jsTrim "op2")).map (fun o => o.status) = some .failed := by
  have h := C8_terminal_stability "op2" "x" 999999
    [("op2", (⟨"op2", "recalc", [JsVal.str "a.com"], .cancelled, 0, none, none,
      90000, 0, none, 1, 0⟩ : Operation))]
    ⟨"op2", "recalc", [JsVal.str "a.com"], .cancelled, 0, none, none, 90000, 0, none, 1, 0⟩
    (by decide) (by rfl) (by simp)
  exact ⟨h.2.2.1, h.2.2.2⟩

/-- Counterexample to C9 as stated: `beginTransaction` on a malformed payload
does not return a structured result — the call raises
(`throw new Error('Dados da operação inválidos')`, modelled as `Except.error`),
so not every entry point of the four components reports its errors as a
structured return value. -/
theorem C9_counterexample :
    (beginTransaction JsVal.null 0 [] "txn_x").1
      = Except.error "Dados da operação inválidos" := rfl

/-- The raw errors on which `mapWhmError` raises: a plain object whose
`message`/`msg` members are not truthy and on which the `JSON.stringify`
fallback throws because it is cyclic. -/
def rawCyclicNoMessage (raw : RawError) : Bool :=
  match raw with
  | .obj _ _ message msg cyclic _ => cyclic && !truthyStr message && !truthyStr msg
  | _ => false

/-- C9 amended: malformed arguments and wrong-state calls are reported as
structured results, with two exceptions that raise instead: `beginTransaction`
raises exactly on a non-object or uncopyable payload, and `mapWhmError` raises
exactly when it must stringify a cyclic object that carries no message text.
The sampled entry points of each component return their structured error
objects and leave the tables untouched. -/
theorem C9_structured_errors :
    (∀ (P : JsVal) (now : Int) (st : TxnState) (fid : String),
        (∃ e, (beginTransaction P now st fid).1 = Except.error e)
          ↔ (jsTruthyObject P = false ∨ containsCycle P = true))
  ∧ (∀ (T now : Int) (st : LockState),
        acquireLock "" T now st
          = (⟨false, none, some "Identificador de recurso inválido"⟩, st))
  ∧ (∀ (R : String) (T now : Int) (st : LockState), R ≠ "" → T ≤ 0 →
        acquireLock R T now st
          = (⟨false, none, some "Timeout deve ser um número positivo em milissegundos"⟩, st))
  ∧ (∀ (R : String) (st : LockState), R ≠ "" → alookup st.locks (jsTrim R) = none →
        releaseLock R st = (⟨false, some "Lock não existe para este recurso"⟩, st))
  ∧ (∀ (now : Int) (st : TxnState),
        commitTransaction "" now st = (⟨none, some "ID de transação inválido"⟩, st))
  ∧ (∀ (id : String) (now : Int) (st : TxnState), id ≠ "" →
        alookup st (jsTrim id) = none →
        commitTransaction id now st = (⟨none, some "Transação não encontrada"⟩, st))
  ∧ (∀ (id : String) (sd : StatusData) (now : Int) (st : OpsState), id ≠ "" →
        updateOperationProgress id JsNum.notNum sd now st
          = (⟨false, some "Progresso deve ser um número entre 0 e 100"⟩, st))
  ∧ (∀ (raw : RawError) (now : Int),
        (∃ e, mapWhmError raw now = Except.error e)
          ↔ rawCyclicNoMessage raw = true) := by
  refine ⟨?_, ?_, ?_, ?_, ?_, ?_, ?_, ?_⟩
  · intro P now st fid
    cases hobj : jsTruthyObject P with
    | false => simp [beginTransaction, hobj]
    | true =>
        cases hcyc : containsCycle P with
        | false => simp [beginTransaction, hobj, jsonClone, hcyc]
        | true => simp [beginTransaction, hobj, jsonClone, hcyc]
  · intro T now st
    simp [acquireLock]
  · intro R T now st hR hT
    simp [acquireLock, hR, hT]
  · intro R st hR hnone
    simp [releaseLock, hR, hnone]
  · intro now st
    simp [commitTransaction]
  · intro id now st hid hnone
    simp [commitTransaction, hid, hnone]
  · intro id sd now st hid
    simp [updateOperationProgress, hid]
  · intro raw now
    cases raw with
    | nullish => simp [mapWhmError, rawCyclicNoMessage]
    | str s => by_cases hs : s = "" <;> simp [mapWhmError, rawCyclicNoMessage, hs]
    | errObj code message => simp [mapWhmError, rawCyclicNoMessage]
    | obj code errno message msg cyc strf =>
        cases h1 : truthyStr message <;> cases h2 : truthyStr msg <;> cases cyc <;>
          simp [mapWhmError, rawCyclicNoMessage, h1, h2]

/-- Witness for the amended C9 at concrete inputs: a cyclic payload makes
`beginTransaction` raise, and an empty resource key makes `acquireLock` return
its structured validation error. -/
theorem C9_witness :
    (∃ e, (beginTransaction JsVal.cyclic 0 [] "txn_a").1 = Except.error e)
  ∧ acquireLock "" 5 0 ⟨[], 0⟩
      = (⟨false, none, some "Identificador de recurso inválido"⟩, (⟨[], 0⟩ : LockState)) := by
  exact ⟨(C9_structured_errors.1 JsVal.cyclic 0 [] "txn_a").mpr (Or.inr rfl),
    C9_structured_errors.2.1 5 0 ⟨[], 0⟩⟩

/-- Counterexample to C10 as stated: the EEXIST mapped error carries base
backoff `b = 0` (`RETRY_CONFIG` has no `backoffMs` row for it and
`createMappedError` stores `|| 0`), yet `getRetryBackoff` at attempt 0 returns
1000, not `b × 2^min(0,3) = 0`, because of its `backoffMs || 1000` default. -/
theorem C10_counterexample :
    (createMappedError .EEXIST "file exists" 0).retry.backoffMs = 0
  ∧ getRetryBackoff (some (createMappedError .EEXIST "file exists" 0)) 0 = 1000
  ∧ getRetryBackoff (some (createMappedError .EEXIST "file exists" 0)) 0
      ≠ (createMappedError .EEXIST "file exists" 0).retry.backoffMs * 2 ^ min 0 3 := by
  exact ⟨rfl, rfl, by decide⟩

/-- C10 amended: for every mapped error whose stored base backoff `b` is
positive, `getRetryBackoff` returns `b × 2^min(n, 3)` — `b, 2b, 4b, 8b` for
attempts 0..3, strictly increasing, and constant `8b` for every attempt ≥ 3;
when the stored base backoff is 0 (or missing), the code substitutes the
default base 1000 instead of using `b`. -/
theorem C10_backoff_amended (m : MappedError) (n : Nat) :
    (0 < m.retry.backoffMs →
        getRetryBackoff (some m) n = m.retry.backoffMs * 2 ^ min n 3
      ∧ getRetryBackoff (some m) 0 = m.retry.backoffMs
      ∧ getRetryBackoff (some m) 1 = 2 * m.retry.backoffMs
      ∧ getRetryBackoff (some m) 2 = 4 * m.retry.backoffMs
      ∧ getRetryBackoff (some m) 3 = 8 * m.retry.backoffMs
      ∧ getRetryBackoff (some m) 0 < getRetryBackoff (some m) 1
      ∧ getRetryBackoff (some m) 1 < getRetryBackoff (some m) 2
      ∧ getRetryBackoff (some m) 2 < getRetryBackoff (some m) 3
      ∧ (3 ≤ n → getRetryBackoff (some m) n = 8 * m.retry.backoffMs))
  ∧ (m.retry.backoffMs = 0 → getRetryBackoff (some m) n = 1000 * 2 ^ min n 3) := by
  constructor
  · intro hb
    have hne : ¬ m.retry.backoffMs = 0 := by omega
    refine ⟨by simp [getRetryBackoff, hne], ?_, ?_, ?_, ?_, ?_, ?_, ?_, ?_⟩
    · norm_num [getRetryBackoff, hne, Nat.min_def]
    · norm_num [getRetryBackoff, hne, Nat.min_def]
      omega
    · norm_num [getRetryBackoff, hne, Nat.min_def]
      omega
    · norm_num [getRetryBackoff, hne, Nat.min_def]
      omega
    · norm_num [getRetryBackoff, hne, Nat.min_def]
      omega
    · norm_num [getRetryBackoff, hne, Nat.min_def]
      omega
    · norm_num [getRetryBackoff, hne, Nat.min_def]
      omega
    · intro hk
      norm_num [getRetryBackoff, hne, min_eq_right hk]
      omega
  · intro h0
    simp [getRetryBackoff, h0]

/-- Witness for the amended C10 at a concrete input: the EBUSY mapped error has
base backoff 1000 and its attempt-5 backoff is the plateau value 8000. -/
theorem C10_witness :
    0 < (createMappedError .EBUSY "busy" 0).retry.backoffMs
  ∧ getRetryBackoff (some (createMappedError .EBUSY "busy" 0)) 5 = 8000 := by
  have h := C10_backoff_amended (createMappedError .EBUSY "busy" 0) 5
  have h8 := (h.1 (by decide)).2.2.2.2.2.2.2.2 (by omega)
  refine ⟨by decide, ?_⟩
  rw [h8]
  decide
